import Mathlib

/-!
Verification development for the wd14_batch_tagger repository (src/nodes.py).

The Python source is shallowly embedded: pure string and list manipulation is
translated to executable Lean functions; the filesystem, the remote download
collaborator, ONNX session construction and inference are modelled as explicit
oracle parameters (an environment record), since the code only observes their
results.  Python floats used for probabilities and thresholds are idealised as
rationals: every compared quantity is finite and the claims are order-theoretic.
-/

/-! ### Python string primitives used by nodes.py -/

/-- Whitespace characters stripped by Python str.strip. -/
def isPySpace (c : Char) : Bool :=
  c = ' ' || c = '\t' || c = '\n' || c = '\x0d' || c = '\x0b' || c = '\x0c'

/-- Python str.strip: drop leading and trailing whitespace. -/
def pyStrip (s : String) : String :=
  String.mk (((s.toList.dropWhile isPySpace).reverse.dropWhile isPySpace).reverse)

/-- ASCII lowercasing of one character, as Python str.lower does on ASCII text. -/
def lowerChar (c : Char) : Char :=
  if 65 ≤ c.toNat ∧ c.toNat ≤ 90 then Char.ofNat (c.toNat + 32) else c

/-- Python str.lower (restricted to the ASCII range exercised by the code). -/
def pyLower (s : String) : String :=
  String.mk (s.toList.map lowerChar)

/-- Split a character list at every occurrence of the separator.
Mirrors Python str.split(sep) for a one-character separator:
an empty input yields one empty field. -/
def splitChar (sep : Char) : List Char → List (List Char)
  | [] => [[]]
  | c :: rest =>
    match splitChar sep rest with
    | [] => [[]]
    | h :: t => if c = sep then [] :: h :: t else (c :: h) :: t

/-- Python s.split(sep) for a single-character separator. -/
def splitOnChar (sep : Char) (s : String) : List String :=
  (splitChar sep s.toList).map String.mk

/-- Python sep.join(xs): elements joined with the separator between them. -/
def joinSep (sep : String) : List String → String
  | [] => ""
  | [t] => t
  | t :: ts => t ++ sep ++ joinSep sep ts

/-- Python tag.replace with a single underscore replaced by a single space
(a one-character substitution is a character map). -/
def underscoreToSpace (s : String) : String :=
  String.mk (s.toList.map (fun c => if c = '_' then ' ' else c))

/-- Python Path(filename).stem: the name with its last dot-suffix removed. -/
def pathStem (s : String) : String :=
  let parts := splitOnChar '.' s
  if parts.length ≤ 1 then s else joinSep "." parts.dropLast

/-! ### Tag post-processing (nodes.py lines 452-496) -/

/-- nodes.py line 455: `tag.replace("_", " ") if replace_underscore else tag`. -/
def processTag (replace_underscore : Bool) (tag : String) : String :=
  if replace_underscore then underscoreToSpace tag else tag

/-- nodes.py line 459:
`[t.strip().lower() for t in exclude_tags.split(",") if t.strip()]`. -/
def exclude_list (exclude_tags : String) : List String :=
  ((splitOnChar ',' exclude_tags).filter (fun t => pyStrip t ≠ "")).map
    (fun t => pyLower (pyStrip t))

/-- nodes.py line 489: the per-pair selection test
`prob > threshold and tag.lower() not in exclude_list`. -/
def keepTag (threshold : ℚ) (excl : List String) (tp : String × ℚ) : Bool :=
  decide (threshold < tp.2) && !(decide (pyLower tp.1 ∈ excl))

/-- nodes.py lines 487-490: iterate `zip(processed_tags, probs)` and collect the
tags passing `keepTag`, preserving order. -/
def selectTags (tags : List String) (probs : List ℚ) (threshold : ℚ)
    (excl : List String) : List String :=
  ((tags.zip probs).filter (keepTag threshold excl)).map Prod.fst

/-- nodes.py lines 493-496: output string assembly from the stripped prepend
and the selected tags. -/
def buildOutput (prepend_tags : String) (result_tags : List String) : String :=
  let ot := pyStrip prepend_tags
  let ot := if ot ≠ "" ∧ result_tags ≠ [] then ot ++ ", " else ot
  ot ++ joinSep ", " result_tags

example : pyStrip "  studio " = "studio" := by decide
example : pyLower "Cat" = "cat" := by decide
example : exclude_list "cat, dog" = ["cat", "dog"] := by decide
example : exclude_list "" = [] := by decide
example : underscoreToSpace "blue_sky" = "blue sky" := by decide
example : buildOutput "studio" ["ear", "tail"] = "studio, ear, tail" := by decide
example : buildOutput "" ["ear"] = "ear" := by decide
example : buildOutput "studio" [] = "studio" := by decide
example : selectTags ["a", "b"] [0, 1] 0 [] = ["b"] := by decide

/-! ### Model registry and asset resolution (nodes.py lines 63-157)

The models directory is modelled as the list of filenames it contains.  The
remote download collaborator (hf_hub_download) is an oracle: for each of the
two possible downloads the environment records either `none` (the call raises,
caught by the except block) or `some f` (the call succeeds and places a file
named `f` in the models directory).  In the reference deployment `f` equals the
registry's remote filename, but nothing in the code enforces that. -/

structure ModelConfig where
  repo_id : String
  filename : String
  csv_filename : String
  display_name : String
deriving DecidableEq

/-- nodes.py lines 63-88: the static registry MODEL_CONFIGS. -/
def MODEL_CONFIGS : List (String × ModelConfig) :=
  [("wd-vit-tagger-v3",
      ⟨"SmilingWolf/wd-vit-tagger-v3", "model.onnx", "selected_tags.csv",
        "WD ViT Tagger v3"⟩),
   ("wd-swinv2-tagger-v3",
      ⟨"SmilingWolf/wd-swinv2-tagger-v3", "model.onnx", "selected_tags.csv",
        "WD SwinV2 Tagger v3"⟩),
   ("wd-eva02-large-tagger-v3",
      ⟨"SmilingWolf/wd-eva02-large-tagger-v3", "model.onnx", "selected_tags.csv",
        "WD EVA02 Large Tagger v3"⟩),
   ("wd-convnext-tagger-v3",
      ⟨"SmilingWolf/wd-convnext-tagger-v3", "model.onnx", "selected_tags.csv",
        "WD ConvNeXT Tagger v3"⟩)]

/-- Download oracle: result of the (at most) two hf_hub_download calls. -/
structure DLEnv where
  dlModel : Option String
  dlCsv : Option String

/-- One fetch-and-rename step of ensure_model_available (nodes.py lines
122-134 for the model file, 137-149 for the csv file): skip when the canonical
file already exists; otherwise download (`none` result means the call raised,
propagating to the except block), then rename the file bearing the remote name
to the canonical name if such a file exists, silently skipping the rename
otherwise. -/
def fetch_step (dl : Option String) (remote canonical : String)
    (fs : List String) : Option (List String) :=
  if canonical ∈ fs then some fs
  else
    match dl with
    | none => none
    | some f =>
      let fs1 := f :: fs
      some (if remote ∈ fs1 then canonical :: fs1.erase remote else fs1)

/-- nodes.py lines 90-157: ensure_model_available.  Returns the success flag
and the resulting contents of the models directory (the returned path strings
are the canonical names, determined by the model name alone). -/
def ensure_model_available (env : DLEnv) (fs : List String)
    (model_name : String) : Bool × List String :=
  match MODEL_CONFIGS.lookup model_name with
  | none => (false, fs)
  | some config =>
    if (model_name ++ ".onnx") ∈ fs ∧ (model_name ++ ".csv") ∈ fs then (true, fs)
    else
      match fetch_step env.dlModel config.filename (model_name ++ ".onnx") fs with
      | none => (false, fs)
      | some fs1 =>
        match fetch_step env.dlCsv config.csv_filename (model_name ++ ".csv") fs1 with
        | none => (false, fs1)
        | some fs2 => (true, fs2)

example :
    ensure_model_available ⟨some "model.onnx", some "selected_tags.csv"⟩ []
      "wd-vit-tagger-v3"
    = (true, ["wd-vit-tagger-v3.csv", "wd-vit-tagger-v3.onnx"]) := by decide

example :
    ensure_model_available ⟨none, none⟩ [] "wd-vit-tagger-v3" = (false, []) := by
  decide

example :
    (ensure_model_available ⟨some "weird.bin", some "selected_tags.csv"⟩ []
      "wd-vit-tagger-v3").1 = true := by decide

/-! ### Model cache and load_model_once (nodes.py lines 53-60, 169-230)

Native ONNX sessions are opaque handles, modelled as natural numbers.  The
session constructor is an oracle in the load environment: `sessAttempt gpu` is
the result of `ort.InferenceSession(model_path, providers)` with the provider
list chosen by `use_gpu` (`none` = the call raised), and `sessFallback` is the
result of the CPU-only retry in the inner except block.  The input metadata of
a session and the parsed rows of the csv file are further oracle fields. -/

inductive Ev where
  | resolve
  | buildSession
deriving DecidableEq

/-- nodes.py lines 54-60: the global model_cache dictionary. -/
structure ModelCache where
  session : Option Nat
  tags : Option (List String)
  model_name : Option String
  input_name : Option String
  input_size : Option Nat
deriving DecidableEq

/-- Environment (oracles) for one load_model_once call. -/
structure LoadEnv where
  dlEnv : DLEnv
  fs : List String
  sessAttempt : Bool → Option Nat
  sessFallback : Option Nat
  sessInputName : Nat → String
  sessInputSize : Nat → Nat
  csvRows : List (List String)

structure LoadResult where
  ok : Bool
  cache : ModelCache
  events : List Ev
deriving DecidableEq

/-- nodes.py lines 210-216: header row skipped, rows with more than one column
keep their second column, shorter rows are silently dropped. -/
def load_tags (rows : List (List String)) : List String :=
  ((rows.drop 1).filter (fun r => decide (1 < r.length))).map (fun r => r.getD 1 "")

/-- nodes.py lines 202-226 with a session in hand: read the input metadata,
check that the csv file exists, parse it and overwrite all five cache fields
together. -/
def finish_load (env : LoadEnv) (cache : ModelCache) (model_name : String)
    (fs1 : List String) (s : Nat) : LoadResult :=
  if (model_name ++ ".csv") ∈ fs1 then
    ⟨true,
      ⟨some s, some (load_tags env.csvRows), some model_name,
        some (env.sessInputName s), some (env.sessInputSize s)⟩,
      [Ev.resolve, Ev.buildSession]⟩
  else ⟨false, cache, [Ev.resolve, Ev.buildSession]⟩

/-- nodes.py lines 169-230: load_model_once.  The hit test is
`model_cache['model_name'] == model_name and model_cache['session'] is not
None`; the event list records which collaborators were used. -/
def load_model_once (env : LoadEnv) (cache : ModelCache) (model_name : String)
    (use_gpu : Bool) : LoadResult :=
  if cache.model_name = some model_name ∧ cache.session ≠ none then
    ⟨true, cache, []⟩
  else
    let r := ensure_model_available env.dlEnv env.fs model_name
    if r.1 = false then ⟨false, cache, [Ev.resolve]⟩
    else
      match env.sessAttempt use_gpu with
      | some s => finish_load env cache model_name r.2 s
      | none =>
        match env.sessFallback with
        | some s => finish_load env cache model_name r.2 s
        | none => ⟨false, cache, [Ev.resolve]⟩

/-! ### Image preprocessing (nodes.py lines 462-481)

A decoded RGB image is its width, height and a pixel map; channel index 0/1/2
is red/green/blue.  The PIL Lanczos resampler is an oracle producing an image
of the requested size; the claims only constrain geometry, not resampled pixel
values.  Casting to float32 performs no value change on 0-255 data, so tensor
entries stay the raw canvas values. -/

structure RGBImage where
  width : Nat
  height : Nat
  pixel : Nat → Nat → Nat → Nat

/-- nodes.py lines 467-468: `ratio = input_size / max(img.size)` and
`new_size = (int(w * ratio), int(h * ratio))`, in exact arithmetic
(`int` truncation of a non-negative quantity is floor division). -/
def new_size (w h e : Nat) : Nat × Nat :=
  (w * e / max w h, h * e / max w h)

/-- nodes.py line 476: `Image.new("RGB", (input_size, input_size),
(255, 255, 255))`. -/
def whiteCanvas (e : Nat) : RGBImage :=
  ⟨e, e, fun _ _ _ => 255⟩

/-- nodes.py line 478: `square.paste(img, paste_pos)` — the pasted image
overwrites the region starting at the given offsets. -/
def pasteImage (canvas img : RGBImage) (px py : Nat) : RGBImage :=
  ⟨canvas.width, canvas.height, fun x y c =>
    if px ≤ x ∧ x < px + img.width ∧ py ≤ y ∧ y < py + img.height then
      img.pixel (x - px) (y - py) c
    else canvas.pixel x y c⟩

/-- A numpy array of rank 4: its shape and an index map. -/
structure Tensor4 where
  dims : Nat × Nat × Nat × Nat
  val : Nat → Nat → Nat → Nat → Nat

/-- nodes.py lines 462-481: the empty-array guard, scale computation, the
invalid-dimension guard, Lanczos resize (oracle), white letterbox paste at
floor-division offsets, and
`np.expand_dims(np.array(square).astype(np.float32)[:, :, ::-1], 0)`: the
array indexed (batch, y, x, channel) with the channel axis reversed. -/
def preprocess (resize : Nat → Nat → RGBImage) (img : RGBImage) (e : Nat) :
    Option Tensor4 :=
  if img.width = 0 ∨ img.height = 0 then none
  else
    let ns := new_size img.width img.height e
    if ns.1 = 0 ∨ ns.2 = 0 then none
    else
      let resized := resize ns.1 ns.2
      let square := pasteImage (whiteCanvas e) resized ((e - ns.1) / 2) ((e - ns.2) / 2)
      some ⟨(1, e, e, 3), fun _ y x c => square.pixel x y (2 - c)⟩

/-! ### tag_batch (nodes.py lines 413-516)

The whole method body sits in one try/except returning `("",)` on any raise,
so the embedding is total.  The inference call `sess.run(...)` is an oracle
from the prepared tensor to either an exception (`none`) or the probability
row.  The cache is mutated only inside load_model_once, so tag_batch is the
load step followed by a pure result computation. -/

structure TagParams where
  model : String
  threshold : ℚ
  character_threshold : ℚ
  replace_underscore : Bool
  use_gpu : Bool
  prepend_tags : String
  exclude_tags : String
  filename : String
  folder_path : String

structure TagEnv where
  loadEnv : LoadEnv
  resize : Nat → Nat → RGBImage
  infer : Tensor4 → Option (List ℚ)
  writeOk : Bool

structure TagResult where
  output : String
  cache : ModelCache
  artifact : Option (String × String)
deriving DecidableEq

/-- nodes.py lines 436-439: strip the display-label suffix from the dropdown
value. -/
def parse_model_name (model : String) : String :=
  if (splitOnChar '|' model).length > 1 then (splitOnChar '|' model).headD model
  else model

/-- nodes.py lines 446-512 given the load result: per-image processing.
Every failure branch (load failure, empty array, invalid resize dimensions,
inference exception) returns the empty string and writes no artifact; on
success the composed string is returned and, when an output folder is given
and the write does not fail, persisted to `<folder>/<stem>.txt`. -/
def tag_output (env : TagEnv) (lr : LoadResult) (image : Option RGBImage)
    (p : TagParams) : String × Option (String × String) :=
  if lr.ok = false then ("", none)
  else
    let tags := lr.cache.tags.getD []
    let input_size := lr.cache.input_size.getD 0
    let processed_tags := tags.map (processTag p.replace_underscore)
    let excl := exclude_list p.exclude_tags
    match image with
    | none => ("", none)
    | some img =>
      match preprocess env.resize img input_size with
      | none => ("", none)
      | some inp =>
        match env.infer inp with
        | none => ("", none)
        | some probs =>
          let result_tags := selectTags processed_tags probs p.threshold excl
          let output := buildOutput p.prepend_tags result_tags
          let artifact :=
            if p.folder_path ≠ "" ∧ env.writeOk then
              some (p.folder_path ++ "/" ++ pathStem p.filename ++ ".txt", output)
            else none
          (output, artifact)

/-- nodes.py lines 413-516: tag_batch.  The cache leaving the call is exactly
the cache leaving load_model_once. -/
def tag_batch (env : TagEnv) (cache : ModelCache) (image : Option RGBImage)
    (p : TagParams) : TagResult :=
  let lr := load_model_once env.loadEnv cache (parse_model_name p.model) p.use_gpu
  let oa := tag_output env lr image p
  ⟨oa.1, lr.cache, oa.2⟩

/-! ### Helper lemmas -/

lemma map_fst_zip_sublist (l1 : List String) (l2 : List ℚ) :
    ((l1.zip l2).map Prod.fst).Sublist l1 := by
  induction l1 generalizing l2 with
  | nil => simp
  | cons a l ih =>
    cases l2 with
    | nil => simp
    | cons b l2 => simpa using (ih l2).cons₂ a

lemma selectTags_sublist (tags : List String) (probs : List ℚ) (thr : ℚ)
    (excl : List String) : (selectTags tags probs thr excl).Sublist tags :=
  ((List.filter_sublist _).map Prod.fst).trans (map_fst_zip_sublist tags probs)

lemma zip_take_min (l1 : List String) (l2 : List ℚ) :
    l1.zip l2 =
      (l1.take (min l1.length l2.length)).zip
        (l2.take (min l1.length l2.length)) := by
  induction l1 generalizing l2 with
  | nil => simp
  | cons a l ih =>
    cases l2 with
    | nil => simp
    | cons b l2 =>
      simp only [List.length_cons, Nat.succ_min_succ, List.take_succ_cons,
        List.zip_cons_cons, List.cons.injEq, true_and]
      exact ih l2

/-! ### Claim theorems: tag post-processing -/

/-- Claim C3: a label/probability pair is selected exactly when the
probability is strictly greater than the threshold and the label's lowercase
form is not excluded; a probability equal to the threshold is never selected,
and threshold + epsilon (epsilon positive, label not excluded) always is. -/
theorem threshold_strict_selection (thr p : ℚ) (excl : List String)
    (l : String) :
    (keepTag thr excl (l, p) = true ↔ thr < p ∧ pyLower l ∉ excl) ∧
    keepTag thr excl (l, thr) = false ∧
    (∀ ε : ℚ, 0 < ε → pyLower l ∉ excl →
      keepTag thr excl (l, thr + ε) = true) := by
  refine ⟨?_, ?_, ?_⟩
  · simp [keepTag]
  · simp [keepTag]
  · intro ε hε hmem
    simp only [keepTag, Bool.and_eq_true, decide_eq_true_eq, Bool.not_eq_true',
      decide_eq_false_iff_not]
    exact ⟨by linarith, hmem⟩

theorem threshold_strict_selection_witness :
    keepTag 1 [] ("tag", 1 + 1) = true ∧ keepTag 1 [] ("tag", 1) = false :=
  ⟨(threshold_strict_selection 1 (1 + 1) [] "tag").2.2 1 (by norm_num)
      (by decide),
   (threshold_strict_selection 1 (1 + 1) [] "tag").2.1⟩

/-- Claim C4: the underscore-to-space transform is applied before exclusion
matching, exclusion compares the transformed label lowercased against the set
of lowercased trimmed nonempty comma-separated terms, so whenever the parsed
exclusion terms contain "cat", the label "Cat" is never selected, for either
value of replace_underscore. -/
theorem exclusion_case_insensitive (ex : String) (ru : Bool)
    (labels : List String) (probs : List ℚ) (thr : ℚ)
    (h : "cat" ∈ exclude_list ex) :
    processTag ru "Cat" = "Cat" ∧
    "Cat" ∉ selectTags (labels.map (processTag ru)) probs thr
      (exclude_list ex) := by
  constructor
  · cases ru <;> decide
  · intro hmem
    simp only [selectTags, List.mem_map] at hmem
    obtain ⟨tp, htp, hfst⟩ := hmem
    have hk := (List.mem_filter.mp htp).2
    simp only [keepTag, Bool.and_eq_true, decide_eq_true_eq, Bool.not_eq_true',
      decide_eq_false_iff_not] at hk
    have hc : pyLower "Cat" = "cat" := by decide
    exact hk.2 (by rw [hfst, hc]; exact h)

theorem exclusion_case_insensitive_witness :
    "Cat" ∉ selectTags (["Cat"].map (processTag true)) [1] 0
      (exclude_list "cat, dog") :=
  (exclusion_case_insensitive "cat, dog" true ["Cat"] [1] 0 (by decide)).2

/-- Claim C5: the composed output is the stripped prepend, a literal ", "
exactly when both the stripped prepend and the selected-tag list are nonempty,
then the selected tags joined by ", "; the selected tags are a subsequence of
the label list, hence in label-file order, never sorted by probability. -/
theorem output_assembly (prepend : String) (ts : List String) :
    (pyStrip prepend = "" → buildOutput prepend ts = joinSep ", " ts) ∧
    (ts = [] → buildOutput prepend ts = pyStrip prepend) ∧
    (pyStrip prepend ≠ "" → ts ≠ [] →
      buildOutput prepend ts = pyStrip prepend ++ ", " ++ joinSep ", " ts) ∧
    ∀ (tags : List String) (probs : List ℚ) (thr : ℚ) (excl : List String),
      (selectTags tags probs thr excl).Sublist tags := by
  refine ⟨?_, ?_, ?_, fun tags probs thr excl => selectTags_sublist _ _ _ _⟩
  · intro h
    simp [buildOutput, h]
  · intro h
    subst h
    simp [buildOutput, joinSep]
  · intro h1 h2
    simp [buildOutput, h1, h2, String.append_assoc]

theorem output_assembly_witness :
    buildOutput "studio" ["ear", "tail"] =
      pyStrip "studio" ++ ", " ++ joinSep ", " ["ear", "tail"] :=
  (output_assembly "studio" ["ear", "tail"]).2.2.1 (by decide) (by decide)

/-- Claim C10: tag selection never fails on a length mismatch: it evaluates
exactly the first min(N, M) index-aligned label/probability pairs and ignores
the surplus entries of the longer sequence. -/
theorem selectTags_zip_truncation (tags : List String) (probs : List ℚ)
    (thr : ℚ) (excl : List String) :
    (tags.zip probs).length = min tags.length probs.length ∧
    selectTags tags probs thr excl =
      selectTags (tags.take (min tags.length probs.length))
        (probs.take (min tags.length probs.length)) thr excl := by
  refine ⟨by simp, ?_⟩
  simp only [selectTags]
  rw [← zip_take_min]

/-- Claim C8: character_threshold has no influence: two tag_batch runs whose
inputs differ only in character_threshold return the same tag string, the same
cache state and the same persisted artifact. -/
theorem character_threshold_no_influence (env : TagEnv) (cache : ModelCache)
    (image : Option RGBImage) (p : TagParams) (ct : ℚ) :
    tag_batch env cache image { p with character_threshold := ct } =
      tag_batch env cache image p := by
  cases p
  rfl

/-! ### Helper lemmas about load_model_once -/

lemma load_hit (env : LoadEnv) (cache : ModelCache) (name : String)
    (gpu : Bool) (h1 : cache.model_name = some name)
    (h2 : cache.session ≠ none) :
    load_model_once env cache name gpu = ⟨true, cache, []⟩ := by
  unfold load_model_once
  rw [if_pos ⟨h1, h2⟩]

lemma finish_load_ok_state (env : LoadEnv) (cache : ModelCache) (name : String)
    (fs1 : List String) (s : Nat)
    (h : (finish_load env cache name fs1 s).ok = true) :
    (finish_load env cache name fs1 s).cache.model_name = some name ∧
    (finish_load env cache name fs1 s).cache.session ≠ none := by
  unfold finish_load at h ⊢
  by_cases hm : (name ++ ".csv") ∈ fs1
  · rw [if_pos hm]
    exact ⟨rfl, by simp⟩
  · rw [if_neg hm] at h
    simp at h

lemma finish_load_fail_cache (env : LoadEnv) (cache : ModelCache)
    (name : String) (fs1 : List String) (s : Nat)
    (h : (finish_load env cache name fs1 s).ok = false) :
    (finish_load env cache name fs1 s).cache = cache := by
  unfold finish_load at h ⊢
  by_cases hm : (name ++ ".csv") ∈ fs1
  · rw [if_pos hm] at h
    simp at h
  · rw [if_neg hm]

lemma load_ok_state (env : LoadEnv) (cache : ModelCache) (name : String)
    (gpu : Bool) (h : (load_model_once env cache name gpu).ok = true) :
    (load_model_once env cache name gpu).cache.model_name = some name ∧
    (load_model_once env cache name gpu).cache.session ≠ none := by
  unfold load_model_once at h ⊢
  by_cases hc : cache.model_name = some name ∧ cache.session ≠ none
  · rw [if_pos hc]
    exact hc
  · rw [if_neg hc] at h ⊢
    by_cases hr : (ensure_model_available env.dlEnv env.fs name).1 = false
    · rw [if_pos hr] at h
      simp at h
    · rw [if_neg hr] at h ⊢
      cases hs : env.sessAttempt gpu with
      | some s =>
        rw [hs] at h
        exact finish_load_ok_state env cache name _ s h
      | none =>
        rw [hs] at h
        cases hf : env.sessFallback with
        | some s =>
          rw [hf] at h
          exact finish_load_ok_state env cache name _ s h
        | none =>
          rw [hf] at h
          exact Bool.noConfusion h

lemma load_fail_cache (env : LoadEnv) (cache : ModelCache) (name : String)
    (gpu : Bool) (h : (load_model_once env cache name gpu).ok = false) :
    (load_model_once env cache name gpu).cache = cache := by
  unfold load_model_once at h ⊢
  by_cases hc : cache.model_name = some name ∧ cache.session ≠ none
  · rw [if_pos hc] at h
    simp at h
  · rw [if_neg hc] at h ⊢
    by_cases hr : (ensure_model_available env.dlEnv env.fs name).1 = false
    · rw [if_pos hr]
    · rw [if_neg hr] at h ⊢
      cases hs : env.sessAttempt gpu with
      | some s =>
        rw [hs] at h
        exact finish_load_fail_cache env cache name _ s h
      | none =>
        rw [hs] at h
        cases hf : env.sessFallback with
        | some s =>
          rw [hf] at h
          exact finish_load_fail_cache env cache name _ s h
        | none =>
          rfl

/-! ### Claim theorems: model cache -/

/-- Claim C7: after a successful load of an id, every subsequent call with the
same id succeeds immediately: it performs no asset resolution and no session
construction (empty event list) and returns the cached state unchanged, for
any environment and any use_gpu value. -/
theorem load_model_once_cached_noop (env : LoadEnv) (cache : ModelCache)
    (name : String) (gpu : Bool)
    (h : (load_model_once env cache name gpu).ok = true) :
    ∀ (env2 : LoadEnv) (gpu2 : Bool),
      load_model_once env2 (load_model_once env cache name gpu).cache name
        gpu2 =
      ⟨true, (load_model_once env cache name gpu).cache, []⟩ := by
  intro env2 gpu2
  obtain ⟨h1, h2⟩ := load_ok_state env cache name gpu h
  exact load_hit env2 _ name gpu2 h1 h2

/-- Claim C9: on a cache hit (cached model_name equals the requested id, live
session), load_model_once succeeds for every value of use_gpu without
resolving assets or building a session, leaving every cache field unchanged:
the backend fixed by the first successful load stays in place. -/
theorem cache_hit_ignores_use_gpu (env : LoadEnv) (cache : ModelCache)
    (name : String) (h1 : cache.model_name = some name)
    (h2 : cache.session ≠ none) :
    ∀ gpu : Bool, load_model_once env cache name gpu = ⟨true, cache, []⟩ :=
  fun gpu => load_hit env cache name gpu h1 h2

/-- A concrete load environment: both asset files of wd-vit-tagger-v3 already
present, session construction succeeding with handle 2. -/
def envVit : LoadEnv :=
  ⟨⟨none, none⟩, ["wd-vit-tagger-v3.onnx", "wd-vit-tagger-v3.csv"],
   fun _ => some 2, none, fun _ => "input_1", fun _ => 448,
   [["tag_id", "name", "category"], ["0", "1girl", "0"]]⟩

def cacheEmpty : ModelCache := ⟨none, none, none, none, none⟩

def cacheVit : ModelCache :=
  ⟨some 2, some ["1girl"], some "wd-vit-tagger-v3", some "input_1", some 448⟩

theorem load_model_once_cached_noop_witness :
    load_model_once envVit
      (load_model_once envVit cacheEmpty "wd-vit-tagger-v3" false).cache
      "wd-vit-tagger-v3" true =
    ⟨true, (load_model_once envVit cacheEmpty "wd-vit-tagger-v3" false).cache,
      []⟩ :=
  load_model_once_cached_noop envVit cacheEmpty "wd-vit-tagger-v3" false
    (by decide) envVit true

theorem cache_hit_ignores_use_gpu_witness :
    load_model_once envVit cacheVit "wd-vit-tagger-v3" true =
      ⟨true, cacheVit, []⟩ :=
  cache_hit_ignores_use_gpu envVit cacheVit "wd-vit-tagger-v3" rfl
    (by decide) true

/-! ### Helper lemmas about fetch_step -/

lemma fetch_step_none (dl : Option String) (remote canonical : String)
    (fs : List String) (h : canonical ∉ fs) (hd : dl = none) :
    fetch_step dl remote canonical fs = none := by
  unfold fetch_step
  rw [if_neg h, hd]

lemma fetch_step_expected (dl : Option String) (remote canonical : String)
    (fs : List String) (h : dl = none ∨ dl = some remote) (fs2 : List String)
    (hs : fetch_step dl remote canonical fs = some fs2) :
    canonical ∈ fs2 ∧ ∀ x ∈ fs, x ∈ fs2 := by
  by_cases hcano : canonical ∈ fs
  · unfold fetch_step at hs
    rw [if_pos hcano] at hs
    cases hs
    exact ⟨hcano, fun x hx => hx⟩
  · rcases h with h | h
    · rw [fetch_step_none dl remote canonical fs hcano h] at hs
      exact Option.noConfusion hs
    · have hval : fetch_step dl remote canonical fs = some (canonical :: fs) := by
        subst h
        unfold fetch_step
        rw [if_neg hcano]
        simp [List.erase_cons_head]
      rw [hval] at hs
      cases hs
      exact ⟨List.mem_cons_self _ _, fun x hx => List.mem_cons_of_mem _ hx⟩

lemma ensure_eq (env : DLEnv) (fs : List String) (name : String)
    (cfg : ModelConfig) (hreg : MODEL_CONFIGS.lookup name = some cfg) :
    ensure_model_available env fs name =
      if (name ++ ".onnx") ∈ fs ∧ (name ++ ".csv") ∈ fs then (true, fs)
      else
        match fetch_step env.dlModel cfg.filename (name ++ ".onnx") fs with
        | none => (false, fs)
        | some fs1 =>
          match fetch_step env.dlCsv cfg.csv_filename (name ++ ".csv") fs1 with
          | none => (false, fs1)
          | some fs2 => (true, fs2) := by
  unfold ensure_model_available
  rw [hreg]

/-! ### Claim theorems: asset resolution -/

/-- Claim C1 counterexample: with both transfers succeeding but the model file
arriving under an unexpected name, ensure_model_available reports success even
though the canonical model file does not exist. -/
theorem ensure_success_without_model_file :
    (ensure_model_available ⟨some "weird.bin", some "selected_tags.csv"⟩ []
        "wd-vit-tagger-v3").1 = true ∧
    "wd-vit-tagger-v3.onnx" ∉
      (ensure_model_available ⟨some "weird.bin", some "selected_tags.csv"⟩ []
        "wd-vit-tagger-v3").2 := by
  decide

/-- Claim C1 (amended): for a registered id, any raising transfer of a
missing required file makes ensure_model_available return failure: a raising
model-file transfer leaves the directory unchanged and fails, and a raising
csv transfer (after whatever the model step produced) fails with the directory
as the model step left it; and provided every performed transfer places its
file under the registry's configured remote filename, success implies that
both canonical files exist.  (Without that proviso the rename is silently
skipped and the function can report success with the canonical model file
absent.) -/
theorem ensure_model_available_amended (env : DLEnv) (fs : List String)
    (name : String) (cfg : ModelConfig)
    (hreg : MODEL_CONFIGS.lookup name = some cfg)
    (hm : env.dlModel = none ∨ env.dlModel = some cfg.filename)
    (hc : env.dlCsv = none ∨ env.dlCsv = some cfg.csv_filename) :
    ((name ++ ".onnx") ∉ fs → env.dlModel = none →
      ensure_model_available env fs name = (false, fs)) ∧
    (∀ fs1, fetch_step env.dlModel cfg.filename (name ++ ".onnx") fs = some fs1 →
      (name ++ ".csv") ∉ fs1 → env.dlCsv = none →
      ensure_model_available env fs name = (false, fs1)) ∧
    ((ensure_model_available env fs name).1 = true →
      (name ++ ".onnx") ∈ (ensure_model_available env fs name).2 ∧
      (name ++ ".csv") ∈ (ensure_model_available env fs name).2) := by
  refine ⟨?_, ?_, ?_⟩
  · intro hno hdl
    rw [ensure_eq env fs name cfg hreg]
    rw [if_neg (fun hb => hno hb.1)]
    rw [fetch_step_none env.dlModel cfg.filename _ _ hno hdl]
  · intro fs1 h1 hno2 hdl2
    rw [ensure_eq env fs name cfg hreg]
    by_cases hboth : (name ++ ".onnx") ∈ fs ∧ (name ++ ".csv") ∈ fs
    · exfalso
      have hstep : fetch_step env.dlModel cfg.filename (name ++ ".onnx") fs =
          some fs := by
        unfold fetch_step
        rw [if_pos hboth.1]
      rw [hstep] at h1
      cases h1
      exact hno2 hboth.2
    · rw [if_neg hboth]
      simp only [h1]
      rw [fetch_step_none env.dlCsv cfg.csv_filename _ _ hno2 hdl2]
  · intro hok
    rw [ensure_eq env fs name cfg hreg] at hok ⊢
    by_cases hboth : (name ++ ".onnx") ∈ fs ∧ (name ++ ".csv") ∈ fs
    · rw [if_pos hboth]
      exact hboth
    · rw [if_neg hboth] at hok ⊢
      cases h1 : fetch_step env.dlModel cfg.filename (name ++ ".onnx") fs with
      | none =>
        simp [h1] at hok
      | some fs1 =>
        simp only [h1] at hok ⊢
        obtain ⟨hm1, hpres1⟩ := fetch_step_expected _ _ _ _ hm _ h1
        cases h2 : fetch_step env.dlCsv cfg.csv_filename (name ++ ".csv") fs1 with
        | none =>
          simp [h2] at hok
        | some fs2 =>
          obtain ⟨hc2, hpres2⟩ := fetch_step_expected _ _ _ _ hc _ h2
          simp only [h2]
          exact ⟨hpres2 _ hm1, hc2⟩

theorem ensure_model_available_amended_witness :
    "wd-vit-tagger-v3.onnx" ∈
      (ensure_model_available ⟨some "model.onnx", some "selected_tags.csv"⟩ []
        "wd-vit-tagger-v3").2 ∧
    "wd-vit-tagger-v3.csv" ∈
      (ensure_model_available ⟨some "model.onnx", some "selected_tags.csv"⟩ []
        "wd-vit-tagger-v3").2 :=
  (ensure_model_available_amended ⟨some "model.onnx", some "selected_tags.csv"⟩
      [] "wd-vit-tagger-v3" ⟨"SmilingWolf/wd-vit-tagger-v3", "model.onnx",
        "selected_tags.csv", "WD ViT Tagger v3"⟩ (by decide) (Or.inr rfl)
      (Or.inr rfl)).2.2 (by decide)

/-! ### Helper lemmas about tag_output -/

lemma tag_output_fail (env : TagEnv) (lr : LoadResult)
    (image : Option RGBImage) (p : TagParams) (h : lr.ok = false) :
    tag_output env lr image p = ("", none) := by
  unfold tag_output
  rw [if_pos h]

lemma tag_output_none (env : TagEnv) (lr : LoadResult) (p : TagParams) :
    tag_output env lr none p = ("", none) := by
  unfold tag_output
  split
  · rfl
  · rfl

lemma tag_output_preprocess_none (env : TagEnv) (lr : LoadResult)
    (img : RGBImage) (p : TagParams)
    (h : preprocess env.resize img (lr.cache.input_size.getD 0) = none) :
    tag_output env lr (some img) p = ("", none) := by
  unfold tag_output
  split
  · rfl
  · simp only [h]

lemma tag_output_infer_none (env : TagEnv) (lr : LoadResult) (img : RGBImage)
    (p : TagParams) (t : Tensor4)
    (hpre : preprocess env.resize img (lr.cache.input_size.getD 0) = some t)
    (hinf : env.infer t = none) :
    tag_output env lr (some img) p = ("", none) := by
  unfold tag_output
  split
  · rfl
  · simp only [hpre, hinf]

/-! ### Claim theorems: per-image failure isolation -/

def img10 : RGBImage := ⟨10, 10, fun _ _ _ => 5⟩

def envSwin : TagEnv :=
  ⟨⟨⟨none, none⟩, ["wd-swinv2-tagger-v3.onnx", "wd-swinv2-tagger-v3.csv"],
     fun _ => some 7, none, fun _ => "input_1", fun _ => 448,
     [["tag_id", "name"], ["0", "tagA"]]⟩,
   fun a b => ⟨a, b, fun _ _ _ => 5⟩, fun _ => none, true⟩

def pSwin : TagParams :=
  ⟨"wd-swinv2-tagger-v3", 0, 0, true, false, "", "", "img.png", ""⟩

/-- Claim C2 counterexample: with the cache holding wd-vit-tagger-v3, a call
requesting wd-swinv2-tagger-v3 whose inference raises returns the empty string
— but the cache fields are all changed, since the cold load of the requested
model succeeded before the failure. -/
theorem tag_batch_inference_failure_changes_cache :
    (tag_batch envSwin cacheVit (some img10) pSwin).output = "" ∧
    (tag_batch envSwin cacheVit (some img10) pSwin).cache ≠ cacheVit := by
  decide

/-- Claim C2 (amended): every per-image failure (model-load failure, absent or
empty image, resize dimensions truncating to zero, inference exception) yields
exactly the empty string with no artifact and does not raise; the cache after
the call is always exactly the cache after the model-loading step — unchanged
when loading failed or when the cache already held the requested model with a
live session, and equal to the fully-loaded requested model when this call's
cold load succeeded before the failure.  The cache is never cleared or
partially written. -/
theorem tag_batch_failure_isolation_amended (env : TagEnv)
    (cache : ModelCache) (image : Option RGBImage) (p : TagParams) :
    (tag_batch env cache image p).cache =
      (load_model_once env.loadEnv cache (parse_model_name p.model)
        p.use_gpu).cache ∧
    ((load_model_once env.loadEnv cache (parse_model_name p.model)
        p.use_gpu).ok = false →
      tag_batch env cache image p = ⟨"", cache, none⟩) ∧
    (cache.model_name = some (parse_model_name p.model) →
      cache.session ≠ none → (tag_batch env cache image p).cache = cache) ∧
    ((load_model_once env.loadEnv cache (parse_model_name p.model)
        p.use_gpu).ok = true →
      (tag_batch env cache image p).cache.model_name =
        some (parse_model_name p.model) ∧
      (tag_batch env cache image p).cache.session ≠ none) ∧
    (image = none → (tag_batch env cache image p).output = "" ∧
      (tag_batch env cache image p).artifact = none) ∧
    (∀ img, image = some img →
      preprocess env.resize img
        ((load_model_once env.loadEnv cache (parse_model_name p.model)
          p.use_gpu).cache.input_size.getD 0) = none →
      (tag_batch env cache image p).output = "" ∧
      (tag_batch env cache image p).artifact = none) ∧
    (∀ img t, image = some img →
      preprocess env.resize img
        ((load_model_once env.loadEnv cache (parse_model_name p.model)
          p.use_gpu).cache.input_size.getD 0) = some t →
      env.infer t = none →
      (tag_batch env cache image p).output = "" ∧
      (tag_batch env cache image p).artifact = none) := by
  refine ⟨rfl, ?_, ?_, ?_, ?_, ?_, ?_⟩
  · intro hf
    simp only [tag_batch]
    rw [tag_output_fail env _ image p hf, load_fail_cache _ _ _ _ hf]
  · intro h1 h2
    simp only [tag_batch]
    rw [load_hit env.loadEnv cache _ p.use_gpu h1 h2]
  · intro hok
    simp only [tag_batch]
    exact load_ok_state _ _ _ _ hok
  · intro h
    subst h
    simp only [tag_batch]
    rw [tag_output_none]
    exact ⟨rfl, rfl⟩
  · intro img himg hpre
    subst himg
    simp only [tag_batch]
    rw [tag_output_preprocess_none env _ img p hpre]
    exact ⟨rfl, rfl⟩
  · intro img t himg hpre hinf
    subst himg
    simp only [tag_batch]
    rw [tag_output_infer_none env _ img p t hpre hinf]
    exact ⟨rfl, rfl⟩

def envNoLoad : TagEnv :=
  ⟨⟨⟨none, none⟩, [], fun _ => none, none, fun _ => "", fun _ => 0, []⟩,
   fun a b => ⟨a, b, fun _ _ _ => 0⟩, fun _ => none, true⟩

def pVit : TagParams :=
  ⟨"wd-vit-tagger-v3", 0, 0, true, false, "", "", "a.png", ""⟩

theorem tag_batch_failure_isolation_amended_witness :
    tag_batch envNoLoad cacheEmpty (some img10) pVit =
      ⟨"", cacheEmpty, none⟩ :=
  (tag_batch_failure_isolation_amended envNoLoad cacheEmpty (some img10)
    pVit).2.1 (by decide)

/-! ### Claim theorems: preprocessing -/

/-- Claim C6: preprocessing computes the uniform scale edge/max(W,H) with both
target dimensions floored, fails when either floors to zero, letterboxes onto
a white 255-valued edge-by-edge canvas at floor-division centering offsets,
reverses the channel order (tensor channel c reads source channel 2 - c, i.e.
RGB becomes BGR), yields shape (1, edge, edge, 3) with a leading batch
dimension of size 1, and keeps raw pixel magnitudes (the float cast rescales
nothing). -/
theorem preprocess_letterbox_bgr (resize : Nat → Nat → RGBImage)
    (img : RGBImage) (e nw nh : Nat) (hW : 0 < img.width)
    (hH : 0 < img.height)
    (hr : ∀ a b, (resize a b).width = a ∧ (resize a b).height = b)
    (hnw : nw = img.width * e / max img.width img.height)
    (hnh : nh = img.height * e / max img.width img.height) :
    new_size img.width img.height e = (nw, nh) ∧
    (nw = 0 ∨ nh = 0 → preprocess resize img e = none) ∧
    (0 < nw → 0 < nh →
      preprocess resize img e =
        some ⟨(1, e, e, 3), fun _ y x c =>
          (pasteImage (whiteCanvas e) (resize nw nh) ((e - nw) / 2)
            ((e - nh) / 2)).pixel x y (2 - c)⟩ ∧
      ∀ y x c,
        (pasteImage (whiteCanvas e) (resize nw nh) ((e - nw) / 2)
            ((e - nh) / 2)).pixel x y c =
          if (e - nw) / 2 ≤ x ∧ x < (e - nw) / 2 + nw ∧
              (e - nh) / 2 ≤ y ∧ y < (e - nh) / 2 + nh then
            (resize nw nh).pixel (x - (e - nw) / 2) (y - (e - nh) / 2) c
          else 255) := by
  subst hnw hnh
  refine ⟨rfl, ?_, ?_⟩
  · intro h0
    simp only [preprocess, new_size]
    rw [if_neg (by omega : ¬(img.width = 0 ∨ img.height = 0))]
    rw [if_pos h0]
  · intro h1 h2
    constructor
    · simp only [preprocess, new_size]
      rw [if_neg (by omega : ¬(img.width = 0 ∨ img.height = 0))]
      rw [if_neg (by omega :
        ¬(img.width * e / max img.width img.height = 0 ∨
          img.height * e / max img.width img.height = 0))]
    · intro y x c
      simp only [pasteImage, whiteCanvas]
      rw [(hr (img.width * e / max img.width img.height)
            (img.height * e / max img.width img.height)).1,
          (hr (img.width * e / max img.width img.height)
            (img.height * e / max img.width img.height)).2]

def img0 : RGBImage := ⟨2, 1, fun _ _ _ => 7⟩

def rz0 : Nat → Nat → RGBImage := fun a b => ⟨a, b, fun _ _ _ => 9⟩

theorem preprocess_letterbox_bgr_witness :
    preprocess rz0 img0 4 =
      some ⟨(1, 4, 4, 3), fun _ y x c =>
        (pasteImage (whiteCanvas 4) (rz0 4 2) 0 1).pixel x y (2 - c)⟩ ∧
    (pasteImage (whiteCanvas 4) (rz0 4 2) 0 1).pixel 0 0 0 = 255 := by
  obtain ⟨-, -, h3⟩ := preprocess_letterbox_bgr rz0 img0 4 4 2 (by decide)
    (by decide) (fun a b => ⟨rfl, rfl⟩) (by decide) (by decide)
  obtain ⟨hsome, hpix⟩ := h3 (by decide) (by decide)
  refine ⟨hsome, ?_⟩
  have h00 := hpix 0 0 0
  rw [h00]
  rw [if_neg (by omega :
    ¬((4 - 4) / 2 ≤ 0 ∧ 0 < (4 - 4) / 2 + 4 ∧ (4 - 2) / 2 ≤ 0 ∧
      0 < (4 - 2) / 2 + 2))]
